import Mathlib

/-!
Verification of `src/lambda_function.py` from
`mlziade/lambda-cloudfront-invalidation-front`.

The program is a single AWS Lambda entry point that, given an event with a
`distribution_id` and an optional `paths` list, checks that the CloudFront
distribution exists and is enabled, then submits an invalidation batch and
returns a structured response envelope.

The two remote calls (`get_distribution`, `create_invalidation`) are modelled
by oracle values describing their outcome: a successful reply, a botocore
`ClientError` carrying a code and a message, or a non-ClientError exception.
`int(time.time())` is modelled by an explicit `now : Nat` parameter.  The
handler additionally returns the list of platform calls it performed, so that
claims about which calls are made can be stated.
-/

namespace LambdaCloudFront

/-- Error data carried by a botocore ClientError: the platform error code and
message found in `e.response` under `Error.Code` and `Error.Message`. -/
structure ClientErr where
  code : String
  message : String
deriving DecidableEq, Repr

/-- Outcome of the platform `get_distribution` call: a successful reply with
the distribution `Status` string and the `DistributionConfig.Enabled` flag,
a ClientError, or some other (non-ClientError) exception. -/
inductive LookupResult where
  | ok (status : String) (enabled : Bool)
  | clientError (e : ClientErr)
  | exn (msg : String)
deriving DecidableEq, Repr

/-- Outcome of the platform `create_invalidation` call: a successful reply
carrying the new invalidation id, a ClientError, or some other exception. -/
inductive InvalResult where
  | ok (invalidationId : String)
  | clientError (e : ClientErr)
  | exn (msg : String)
deriving DecidableEq, Repr

/-- A Python exception escaping a helper into `lambda_handler`: either a
botocore ClientError (caught by the `except ClientError` clause) or any
other exception (caught by the `except Exception` clause). -/
inductive PyExn where
  | client (e : ClientErr)
  | other (msg : String)
deriving DecidableEq, Repr

/-- Embedding of `check_distribution_exists` (lambda_function.py lines
99-121).  On a successful lookup it returns the `Enabled` flag and ignores
the `Status` field; a ClientError with code `NoSuchDistribution` yields
`false`; any other ClientError is re-raised; a non-ClientError exception
propagates (the `except` clause only catches ClientError). -/
def check_distribution_exists (r : LookupResult) : Except PyExn Bool :=
  match r with
  | .ok _ enabled => .ok enabled
  | .clientError e =>
      if e.code = "NoSuchDistribution" then .ok false else .error (.client e)
  | .exn m => .error (.other m)

/-- The `InvalidationBatch` payload sent to the platform (lines 132-138):
a `Paths` object with `Quantity` and `Items`, plus the `CallerReference`. -/
structure InvalidationBatch where
  Quantity : Nat
  Items : List String
  CallerReference : String
deriving DecidableEq, Repr

/-- The batch built by `create_invalidation` (lines 128-138): `Quantity` is
`len(paths)`, `Items` is `paths`, and the caller reference is the string
`lambda-invalidation-` followed by `int(time.time())`. -/
def create_invalidation_batch (paths : List String) (now : Nat) : InvalidationBatch :=
  { Quantity := paths.length
    Items := paths
    CallerReference := "lambda-invalidation-" ++ toString now }

/-- Embedding of the result handling of `create_invalidation` (lines
123-145): on success it returns `some` of the invalidation id; a
ClientError is logged and swallowed, returning `none`; a non-ClientError
exception propagates to the caller. -/
def create_invalidation (r : InvalResult) : Except PyExn (Option String) :=
  match r with
  | .ok invalidationId => .ok (some invalidationId)
  | .clientError _ => .ok none
  | .exn m => .error (.other m)

/-- The Lambda input event.  `event.get('distribution_id')` returns `none`
when the key is absent (or its value is null); `event.get('paths', ['/*'])`
is `paths.getD (cons "/*" nil)`. -/
structure Event where
  distribution_id : Option String
  paths : Option (List String)
deriving DecidableEq, Repr

/-- The JSON body placed in the response envelope, one constructor per shape
of dict passed to `json.dumps` in `lambda_handler`: a bare `error` message,
an `error` message together with a `success` flag (the two exception
branches), or the full success body. -/
inductive Body where
  | error (msg : String)
  | errorSuccess (msg : String) (success : Bool)
  | ok (message : String) (distribution_id : String) (invalidation_id : String)
      (paths : List String) (success : Bool)
deriving DecidableEq, Repr

/-- The response envelope returned by `lambda_handler`. -/
structure Response where
  statusCode : Nat
  body : Body
deriving DecidableEq, Repr

/-- A platform call performed by the handler, recorded in order. -/
inductive PlatformCall where
  | get_distribution (id : String)
  | create_invalidation (id : String) (batch : InvalidationBatch)
deriving DecidableEq, Repr

/-- Response assembly of the two top-level `except` clauses of
`lambda_handler` (lines 76-97): a ClientError becomes a 500 with the
platform error code and message and `success: False`; any other exception
becomes a 500 with the stringified exception and `success: False`. -/
def exceptionResponse : PyExn → Response
  | .client e =>
      { statusCode := 500
        body := .errorSuccess ("AWS Error: " ++ e.code ++ " - " ++ e.message) false }
  | .other m =>
      { statusCode := 500
        body := .errorSuccess ("Unexpected error: " ++ m) false }

/-- Embedding of `lambda_handler` (lambda_function.py lines 6-97).  The two
oracle arguments give the outcome of the platform calls should they be made,
and `now` is `int(time.time())` at the moment `create_invalidation` builds
its caller reference.  The result pairs the response envelope with the list
of platform calls performed.  Python's `if not distribution_id:` fires both
when the key is absent/null (`none`) and when the value is the empty
string; likewise `if not invalidation_id:` on line 53 fires both when
create_invalidation returned None and when the platform-returned id is the
empty string, so both land in the 500 `Failed to create invalidation`
branch. -/
def lambda_handler (event : Event) (lookup : LookupResult) (inval : InvalResult)
    (now : Nat) : Response × List PlatformCall :=
  match event.distribution_id with
  | none =>
      ({ statusCode := 400
         body := .error "distribution_id is required in the event payload" }, [])
  | some did =>
      if did = "" then
        ({ statusCode := 400
           body := .error "distribution_id is required in the event payload" }, [])
      else
        let paths := event.paths.getD ["/*"]
        match check_distribution_exists lookup with
        | .error e => (exceptionResponse e, [.get_distribution did])
        | .ok false =>
            ({ statusCode := 404
               body := .error ("CloudFront distribution " ++ did ++ " not found") },
             [.get_distribution did])
        | .ok true =>
            let batch := create_invalidation_batch paths now
            match create_invalidation inval with
            | .error e =>
                (exceptionResponse e,
                 [.get_distribution did, .create_invalidation did batch])
            | .ok none =>
                ({ statusCode := 500
                   body := .error "Failed to create invalidation" },
                 [.get_distribution did, .create_invalidation did batch])
            | .ok (some invalidation_id) =>
                if invalidation_id = "" then
                  ({ statusCode := 500
                     body := .error "Failed to create invalidation" },
                   [.get_distribution did, .create_invalidation did batch])
                else
                  ({ statusCode := 200
                     body := .ok "CloudFront invalidation created successfully" did
                       invalidation_id paths true },
                   [.get_distribution did, .create_invalidation did batch])

/-- C1 counterexample: the claim fails when the platform-returned
invalidation id is the empty string.  With an enabled distribution and a
successful invalidation call returning the id `""`, the handler returns
statusCode 500 with the generic failure body rather than 200, because
`if not invalidation_id:` on line 53 treats the empty id as falsy. -/
theorem c1_empty_id_counterexample :
    (lambda_handler ⟨some "E123", some ["/a"]⟩ (.ok "Deployed" true) (.ok "") 9).1 =
      { statusCode := 500
        body := .error "Failed to create invalidation" }
    ∧ (lambda_handler ⟨some "E123", some ["/a"]⟩
        (.ok "Deployed" true) (.ok "") 9).1.statusCode ≠ 200 := by
  exact ⟨rfl, by decide⟩

/-- C1 (amended): for every request with a present, non-empty distribution_id
where the platform reports the distribution enabled and the invalidation call
succeeds returning a non-empty invalidation id, the handler returns
statusCode 200 with a body whose invalidation_id is the platform-returned id,
whose distribution_id is the input id, whose paths is the input path list
(defaulting to the single wildcard when the paths key is omitted), and whose
success flag is true.  Non-emptiness of the returned id is required: line
53's truthiness check sends an empty id to the 500 branch. -/
theorem c1_success_path (did status invId : String) (ps : Option (List String))
    (now : Nat) (h : did ≠ "") (hinv : invId ≠ "") :
    (lambda_handler ⟨some did, ps⟩ (.ok status true) (.ok invId) now).1 =
      { statusCode := 200
        body := .ok "CloudFront invalidation created successfully" did invId
          (ps.getD ["/*"]) true }
    ∧ (Option.getD (none : Option (List String)) ["/*"] = ["/*"]) := by
  refine ⟨?_, rfl⟩
  simp [lambda_handler, check_distribution_exists, create_invalidation, h, hinv]

theorem c1_success_path_witness :
    (("E123" : String) ≠ "" ∧ ("INV1" : String) ≠ "")
    ∧ ((lambda_handler ⟨some "E123", some ["/a", "/b"]⟩ (.ok "Deployed" true)
          (.ok "INV1") 1700000000).1 =
        { statusCode := 200
          body := .ok "CloudFront invalidation created successfully" "E123" "INV1"
            ["/a", "/b"] true }
      ∧ (Option.getD (none : Option (List String)) ["/*"] = ["/*"])) :=
  ⟨⟨by decide, by decide⟩, c1_success_path "E123" "Deployed" "INV1"
    (some ["/a", "/b"]) 1700000000 (by decide) (by decide)⟩

/-- C2: for every request in which distribution_id is absent, the handler
returns statusCode 400 with an explanatory error body, and the platform call
trace is empty — neither the distribution lookup nor the invalidation
creation is invoked. -/
theorem c2_missing_distribution_id (ps : Option (List String))
    (lookup : LookupResult) (inval : InvalResult) (now : Nat) :
    lambda_handler ⟨none, ps⟩ lookup inval now =
      ({ statusCode := 400
         body := .error "distribution_id is required in the event payload" }, []) := by
  rfl

/-- C3: a lookup reporting the distinguished NoSuchDistribution error, or a
distribution with Enabled false, yields statusCode 404; the existence check
returns exactly the Enabled flag on any successful lookup, the Status field
being ignored; and an enabled distribution still mid-deployment (for
example Status InProgress) proceeds to the invalidation call. -/
theorem c3_not_found_or_disabled (did st msg : String) (en : Bool)
    (ps : Option (List String)) (i : InvalResult) (now : Nat) (h : did ≠ "") :
    check_distribution_exists (.ok st en) = .ok en
    ∧ (lambda_handler ⟨some did, ps⟩
        (.clientError ⟨"NoSuchDistribution", msg⟩) i now).1.statusCode = 404
    ∧ (lambda_handler ⟨some did, ps⟩ (.ok st false) i now).1.statusCode = 404
    ∧ (lambda_handler ⟨some did, ps⟩ (.ok "InProgress" true) i now).2 =
        [.get_distribution did,
         .create_invalidation did (create_invalidation_batch (ps.getD ["/*"]) now)] := by
  refine ⟨rfl, ?_, ?_, ?_⟩
  · simp [lambda_handler, check_distribution_exists, h]
  · simp [lambda_handler, check_distribution_exists, h]
  · cases i with
    | ok a =>
        by_cases hi : a = "" <;>
          simp [lambda_handler, check_distribution_exists, create_invalidation, h, hi]
    | clientError e =>
        simp [lambda_handler, check_distribution_exists, create_invalidation, h]
    | exn m =>
        simp [lambda_handler, check_distribution_exists, create_invalidation, h]

theorem c3_not_found_or_disabled_witness :
    ("E999" : String) ≠ ""
    ∧ (check_distribution_exists (.ok "Deployed" true) = .ok true
      ∧ (lambda_handler ⟨some "E999", none⟩
          (.clientError ⟨"NoSuchDistribution", "The specified distribution does not exist."⟩)
          (.ok "INV1") 7).1.statusCode = 404
      ∧ (lambda_handler ⟨some "E999", none⟩ (.ok "Deployed" false) (.ok "INV1") 7).1.statusCode = 404
      ∧ (lambda_handler ⟨some "E999", none⟩ (.ok "InProgress" true) (.ok "INV1") 7).2 =
          [.get_distribution "E999",
           .create_invalidation "E999"
             (create_invalidation_batch ((none : Option (List String)).getD ["/*"]) 7)]) :=
  ⟨by decide, c3_not_found_or_disabled "E999" "Deployed"
    "The specified distribution does not exist." true none (.ok "INV1") 7 (by decide)⟩

/-- C4: when the platform invalidation call fails with a ClientError, the
error is swallowed inside create_invalidation, which returns an absent
result, and the handler returns statusCode 500 with the fixed generic body
`Failed to create invalidation` — the same body for every error code and
message, so the underlying platform error detail never appears. -/
theorem c4_invalidation_failure_generic (did st : String) (e : ClientErr)
    (ps : Option (List String)) (now : Nat) (h : did ≠ "") :
    create_invalidation (.clientError e) = .ok none
    ∧ (lambda_handler ⟨some did, ps⟩ (.ok st true) (.clientError e) now).1 =
        { statusCode := 500
          body := .error "Failed to create invalidation" } := by
  refine ⟨rfl, ?_⟩
  simp [lambda_handler, check_distribution_exists, create_invalidation, h]

theorem c4_invalidation_failure_generic_witness :
    ("E123" : String) ≠ ""
    ∧ (create_invalidation (.clientError ⟨"AccessDenied", "not allowed"⟩) = .ok none
      ∧ (lambda_handler ⟨some "E123", none⟩ (.ok "Deployed" true)
          (.clientError ⟨"AccessDenied", "not allowed"⟩) 9).1 =
          { statusCode := 500
            body := .error "Failed to create invalidation" }) :=
  ⟨by decide, c4_invalidation_failure_generic "E123" "Deployed"
    ⟨"AccessDenied", "not allowed"⟩ none 9 (by decide)⟩

/-- C5: when the platform distribution lookup fails with a ClientError whose
code is not NoSuchDistribution, the error propagates out of
check_distribution_exists and the handler returns statusCode 500 whose body
contains that error code and message and the success flag false. -/
theorem c5_lookup_error_propagates (did : String) (e : ClientErr)
    (ps : Option (List String)) (i : InvalResult) (now : Nat)
    (h : did ≠ "") (hc : e.code ≠ "NoSuchDistribution") :
    check_distribution_exists (.clientError e) = .error (.client e)
    ∧ (lambda_handler ⟨some did, ps⟩ (.clientError e) i now).1 =
        { statusCode := 500
          body := .errorSuccess ("AWS Error: " ++ e.code ++ " - " ++ e.message) false } := by
  constructor
  · simp [check_distribution_exists, hc]
  · simp [lambda_handler, check_distribution_exists, exceptionResponse, h, hc]

theorem c5_lookup_error_propagates_witness :
    (("E123" : String) ≠ "" ∧ ("Throttling" : String) ≠ "NoSuchDistribution")
    ∧ (check_distribution_exists (.clientError ⟨"Throttling", "slow down"⟩) =
        .error (.client ⟨"Throttling", "slow down"⟩)
      ∧ (lambda_handler ⟨some "E123", none⟩
          (.clientError ⟨"Throttling", "slow down"⟩) (.ok "INV1") 9).1 =
          { statusCode := 500
            body := .errorSuccess ("AWS Error: " ++ "Throttling" ++ " - " ++ "slow down") false }) :=
  ⟨⟨by decide, by decide⟩, c5_lookup_error_propagates "E123"
    ⟨"Throttling", "slow down"⟩ none (.ok "INV1") 9 (by decide) (by decide)⟩

/-- C6: for every input event and every outcome of the two platform calls
(success, not-found, ClientError, or unexpected exception) the handler
returns exactly one response envelope, whose statusCode is one of 200, 400,
404, or 500. -/
theorem c6_status_codes (event : Event) (lookup : LookupResult)
    (inval : InvalResult) (now : Nat) :
    (lambda_handler event lookup inval now).1.statusCode = 200
    ∨ (lambda_handler event lookup inval now).1.statusCode = 400
    ∨ (lambda_handler event lookup inval now).1.statusCode = 404
    ∨ (lambda_handler event lookup inval now).1.statusCode = 500 := by
  obtain ⟨odid, ps⟩ := event
  cases odid with
  | none => simp [lambda_handler]
  | some did =>
    by_cases h : did = ""
    · simp [lambda_handler, h]
    · cases lookup with
      | ok st en =>
        cases en with
        | false => simp [lambda_handler, check_distribution_exists, h]
        | true =>
          cases inval with
          | ok invId =>
              by_cases hi : invId = "" <;>
                simp [lambda_handler, check_distribution_exists, create_invalidation, h, hi]
          | clientError e =>
              simp [lambda_handler, check_distribution_exists, create_invalidation, h]
          | exn m =>
              simp [lambda_handler, check_distribution_exists, create_invalidation,
                exceptionResponse, h]
      | clientError e =>
        by_cases hc : e.code = "NoSuchDistribution"
        · simp [lambda_handler, check_distribution_exists, h, hc]
        · simp [lambda_handler, check_distribution_exists, exceptionResponse, h, hc]
      | exn m =>
        simp [lambda_handler, check_distribution_exists, exceptionResponse, h]

/-- C7: every invalidation batch built at wall-clock second `now` carries the
caller reference `lambda-invalidation-` followed by `now`; two batches built
in the same second receive identical tokens whatever their paths, so
distinctness per invocation is not guaranteed; and a handler invocation that
reaches invalidation creation passes exactly that batch to the platform. -/
theorem c7_caller_reference_time_derived (ps qs : List String) (did st : String)
    (i : InvalResult) (now : Nat) (h : did ≠ "") :
    (create_invalidation_batch ps now).CallerReference =
      "lambda-invalidation-" ++ toString now
    ∧ (create_invalidation_batch ps now).CallerReference =
        (create_invalidation_batch qs now).CallerReference
    ∧ (lambda_handler ⟨some did, some ps⟩ (.ok st true) i now).2 =
        [.get_distribution did,
         .create_invalidation did (create_invalidation_batch ps now)] := by
  refine ⟨rfl, rfl, ?_⟩
  cases i with
  | ok a =>
      by_cases hi : a = "" <;>
        simp [lambda_handler, check_distribution_exists, create_invalidation, h, hi]
  | clientError e =>
      simp [lambda_handler, check_distribution_exists, create_invalidation, h]
  | exn m =>
      simp [lambda_handler, check_distribution_exists, create_invalidation, h]

theorem c7_caller_reference_time_derived_witness :
    ("E123" : String) ≠ ""
    ∧ ((create_invalidation_batch ["/a"] 1700000000).CallerReference =
        "lambda-invalidation-" ++ toString 1700000000
      ∧ (create_invalidation_batch ["/a"] 1700000000).CallerReference =
          (create_invalidation_batch ["/b", "/c"] 1700000000).CallerReference
      ∧ (lambda_handler ⟨some "E123", some ["/a"]⟩ (.ok "Deployed" true)
          (.ok "INV1") 1700000000).2 =
          [.get_distribution "E123",
           .create_invalidation "E123" (create_invalidation_batch ["/a"] 1700000000)]) :=
  ⟨by decide, c7_caller_reference_time_derived ["/a"] ["/b", "/c"] "E123" "Deployed"
    (.ok "INV1") 1700000000 (by decide)⟩

/-- C8: a request whose distribution_id is present but equal to the empty
string, or whose distribution_id value is null (so that `event.get` yields
none just as when the key is absent), is treated exactly like a missing
distribution_id: statusCode 400 with the `distribution_id is required` error
and an empty platform call trace. -/
theorem c8_falsy_distribution_id (ps : Option (List String))
    (lookup : LookupResult) (inval : InvalResult) (now : Nat) :
    lambda_handler ⟨some "", ps⟩ lookup inval now =
      ({ statusCode := 400
         body := .error "distribution_id is required in the event payload" }, [])
    ∧ lambda_handler ⟨none, ps⟩ lookup inval now =
        lambda_handler ⟨some "", ps⟩ lookup inval now := by
  exact ⟨rfl, rfl⟩

/-- C9: a distribution that exists but has Enabled false produces exactly the
same 404 response as a genuinely non-existent distribution: both bodies carry
the error text `CloudFront distribution <id> not found`, so the two outcomes
are indistinguishable in the response envelope. -/
theorem c9_disabled_indistinguishable (did st msg : String)
    (ps : Option (List String)) (i : InvalResult) (now : Nat) (h : did ≠ "") :
    (lambda_handler ⟨some did, ps⟩ (.ok st false) i now).1 =
      (lambda_handler ⟨some did, ps⟩
        (.clientError ⟨"NoSuchDistribution", msg⟩) i now).1
    ∧ (lambda_handler ⟨some did, ps⟩ (.ok st false) i now).1 =
        { statusCode := 404
          body := .error ("CloudFront distribution " ++ did ++ " not found") } := by
  constructor
  · simp [lambda_handler, check_distribution_exists, h]
  · simp [lambda_handler, check_distribution_exists, h]

theorem c9_disabled_indistinguishable_witness :
    ("E123" : String) ≠ ""
    ∧ ((lambda_handler ⟨some "E123", none⟩ (.ok "Deployed" false) (.ok "INV1") 9).1 =
        (lambda_handler ⟨some "E123", none⟩
          (.clientError ⟨"NoSuchDistribution", "gone"⟩) (.ok "INV1") 9).1
      ∧ (lambda_handler ⟨some "E123", none⟩ (.ok "Deployed" false) (.ok "INV1") 9).1 =
          { statusCode := 404
            body := .error ("CloudFront distribution " ++ "E123" ++ " not found") }) :=
  ⟨by decide, c9_disabled_indistinguishable "E123" "Deployed" "gone" none
    (.ok "INV1") 9 (by decide)⟩

/-- C10: every invalidation batch has Quantity equal to the length of Items
and Items equal to the caller-supplied path list in order; when the event
contains an explicit paths value (even the empty list) the handler passes
exactly that list to the platform, without applying the wildcard default. -/
theorem c10_batch_shape (ps : List String) (did st : String) (i : InvalResult)
    (now : Nat) (h : did ≠ "") :
    (create_invalidation_batch ps now).Quantity =
      (create_invalidation_batch ps now).Items.length
    ∧ (create_invalidation_batch ps now).Items = ps
    ∧ (lambda_handler ⟨some did, some ps⟩ (.ok st true) i now).2 =
        [.get_distribution did,
         .create_invalidation did (create_invalidation_batch ps now)] := by
  refine ⟨rfl, rfl, ?_⟩
  cases i with
  | ok a =>
      by_cases hi : a = "" <;>
        simp [lambda_handler, check_distribution_exists, create_invalidation, h, hi]
  | clientError e =>
      simp [lambda_handler, check_distribution_exists, create_invalidation, h]
  | exn m =>
      simp [lambda_handler, check_distribution_exists, create_invalidation, h]

theorem c10_batch_shape_witness :
    ("E123" : String) ≠ ""
    ∧ ((create_invalidation_batch [] 9).Quantity =
        (create_invalidation_batch [] 9).Items.length
      ∧ (create_invalidation_batch [] 9).Items = []
      ∧ (lambda_handler ⟨some "E123", some []⟩ (.ok "Deployed" true) (.ok "INV1") 9).2 =
          [.get_distribution "E123",
           .create_invalidation "E123" (create_invalidation_batch [] 9)]) :=
  ⟨by decide, c10_batch_shape [] "E123" "Deployed" (.ok "INV1") 9 (by decide)⟩

end LambdaCloudFront
